import Mathlib

/-!
Verification of the dca-optimizer trading bot against its specification.

The Python sources under `src/` are shallowly embedded below: enums become
inductive types, dataclasses become structures, Python `float` arithmetic is
modelled over `ℚ`, and methods become Lean functions translated clause by
clause from the source.  Theorems at the bottom settle the specification
claims against these embeddings.
-/

namespace DCA

/-- `SignalType` enum from `src/core/config.py`. -/
inductive SignalType where
  | TURBO_BUY
  | EXTRA_BUY
  | NORMAL_DCA
  | SKIP
  | SELL
  | ALERT
  | HOLD
deriving DecidableEq, Repr

/-- `RiskLevel` enum from `src/core/config.py`. -/
inductive RiskLevel where
  | SAFE
  | WARNING
  | DANGER
  | CRITICAL
deriving DecidableEq, Repr

/-- `Indicator` dataclass from `src/core/database.py` (name omitted: it only
feeds log strings). -/
structure Indicator where
  value : ℚ
  level : RiskLevel
  threshold_warning : ℚ
  threshold_danger : ℚ
  threshold_critical : ℚ
deriving DecidableEq, Repr

/-- `Position` dataclass from `src/core/database.py`. -/
structure Position where
  total_btc : ℚ
  sold_btc : ℚ
  cost_basis : ℚ
deriving DecidableEq, Repr

/-- `Position.remaining_btc` property from `src/core/database.py`. -/
def Position.remaining_btc (p : Position) : ℚ :=
  p.total_btc - p.sold_btc

/-- `Position.cost_per_btc` property from `src/core/database.py`:
`self.cost_basis / self.total_btc if self.total_btc > 0 else 0`. -/
def Position.cost_per_btc (p : Position) : ℚ :=
  if p.total_btc > 0 then p.cost_basis / p.total_btc else 0

/-- The `sell_tiers` dict of `SellConfig` in `src/core/config.py`, whose keys
are `1`, `2`, `3` and `"pi_cycle"`. -/
structure SellTiers where
  tier1 : ℚ
  tier2 : ℚ
  tier3 : ℚ
  pi_cycle : ℚ
deriving DecidableEq, Repr

/-- Default `sell_tiers` from `src/core/config.py`. -/
def defaultSellTiers : SellTiers :=
  { tier1 := 1/10, tier2 := 3/20, tier3 := 1/4, pi_cycle := 1/4 }

/-- The fields of `SellConfig` from `src/core/config.py` used by the sell
strategy. -/
structure SellConfig where
  sell_tiers : SellTiers
  min_signals_to_alert : ℕ
  min_signals_to_sell : ℕ
deriving DecidableEq, Repr

/-- Default `SellConfig` values from `src/core/config.py`. -/
def defaultSellConfig : SellConfig :=
  { sell_tiers := defaultSellTiers
    min_signals_to_alert := 1
    min_signals_to_sell := 2 }

/-- `DCASellStrategy._create_indicator` from `src/core/strategies.py`. -/
def createIndicator (value warn danger critical : ℚ) : Indicator :=
  let level :=
    if value ≥ critical then RiskLevel.CRITICAL
    else if value ≥ danger then RiskLevel.DANGER
    else if value ≥ warn then RiskLevel.WARNING
    else RiskLevel.SAFE
  { value := value, level := level
    threshold_warning := warn, threshold_danger := danger
    threshold_critical := critical }

/-- The counts dict returned by `DCASellStrategy._count_signals`. -/
structure SignalCounts where
  warning : ℕ
  danger : ℕ
  critical : ℕ
deriving DecidableEq, Repr

/-- `DCASellStrategy._count_signals` from `src/core/strategies.py`. -/
def countSignals (indicators : List Indicator) : SignalCounts :=
  { warning := (indicators.filter (fun i => i.level = RiskLevel.WARNING)).length
    danger := (indicators.filter (fun i => i.level = RiskLevel.DANGER)).length
    critical := (indicators.filter (fun i => i.level = RiskLevel.CRITICAL)).length }

/-- `DCASellStrategy._calculate_risk_score` from `src/core/strategies.py`:
`score = warning*10 + danger*25 + critical*40 (+30 if pi_cycle); min(score, 100)`. -/
def calculateRiskScore (counts : SignalCounts) (pi_cycle : Bool) : ℕ :=
  let score := 0
  let score := score + counts.warning * 10
  let score := score + counts.danger * 25
  let score := score + counts.critical * 40
  let score := if pi_cycle then score + 30 else score
  min score 100

/-- `MarketAnalysis.risk_score` property from `src/dca_sell.py` (the legacy
script): the same weighted sum clamped at 100. -/
def MarketAnalysis.risk_score
    (signals_warning signals_danger signals_critical : ℕ)
    (pi_cycle_triggered : Bool) : ℕ :=
  let score := 0
  let score := score + signals_warning * 10
  let score := score + signals_danger * 25
  let score := score + signals_critical * 40
  let score := if pi_cycle_triggered then score + 30 else score
  min score 100

/-- `SellRepository.record_sale` from `src/core/database.py`, restricted to its
effect on the stored position row:
`UPDATE position SET sold_btc = sold_btc + ?`. -/
def record_sale (p : Position) (btc_amount : ℚ) : Position :=
  { p with sold_btc := p.sold_btc + btc_amount }

/-- One iteration of the `for ind in indicators` loop in
`DCASellStrategy._generate_recommendation` (`src/core/strategies.py`,
lines 243-258), acting on the running `sell_pct`. -/
def sellPctStep (cfg : SellConfig) (sell_pct : ℚ) (ind : Indicator) : ℚ :=
  if ind.level = RiskLevel.CRITICAL then
    max sell_pct cfg.sell_tiers.tier3
  else if ind.level = RiskLevel.DANGER then
    max sell_pct cfg.sell_tiers.tier2
  else if ind.level = RiskLevel.WARNING ∧ sell_pct = 0 then
    cfg.sell_tiers.tier1
  else
    sell_pct

/-- The `sell_pct` computed by `DCASellStrategy._generate_recommendation`:
`sell_pct = 0.0`, bumped to the pi-cycle tier when `pi_cycle`, then the loop
over the indicator list in order. -/
def computeSellPct (cfg : SellConfig) (pi_cycle : Bool) (indicators : List Indicator) : ℚ :=
  let sell_pct : ℚ := 0
  let sell_pct := if pi_cycle then max sell_pct cfg.sell_tiers.pi_cycle else sell_pct
  indicators.foldl (sellPctStep cfg) sell_pct

/-- The `signal_type` chosen by `DCASellStrategy._generate_recommendation`
(lines 264-273): SELL when `total_signals >= min_signals_to_sell or pi_cycle`,
else ALERT when `total_signals >= min_signals_to_alert`, else HOLD. -/
def classifySignal (cfg : SellConfig) (counts : SignalCounts) (pi_cycle : Bool) : SignalType :=
  let total_signals := counts.warning + counts.danger + counts.critical
  if cfg.min_signals_to_sell ≤ total_signals ∨ pi_cycle then SignalType.SELL
  else if cfg.min_signals_to_alert ≤ total_signals then SignalType.ALERT
  else SignalType.HOLD

/-- The fields of `SellSignal` (`src/core/database.py`) computed by
`DCASellStrategy._generate_recommendation` that the claims are about. -/
structure SellSignalResult where
  signal_type : SignalType
  risk_score : ℕ
  sell_percentage : ℚ
  sell_amount_btc : ℚ
  sell_amount_usd : ℚ
  pi_cycle_triggered : Bool
deriving DecidableEq, Repr

/-- `DCASellStrategy._generate_recommendation` from `src/core/strategies.py`,
assembled from the pieces above exactly as the method does (counts and
risk score are those `evaluate` passes in, both derived from the same
indicator list). -/
def generateRecommendation (cfg : SellConfig) (indicators : List Indicator)
    (pi_cycle : Bool) (price : ℚ) (position : Position) : SellSignalResult :=
  let counts := countSignals indicators
  let sell_pct := computeSellPct cfg pi_cycle indicators
  let sell_btc := position.remaining_btc * sell_pct
  let sell_usd := sell_btc * price
  { signal_type := classifySignal cfg counts pi_cycle
    risk_score := calculateRiskScore counts pi_cycle
    sell_percentage := sell_pct
    sell_amount_btc := sell_btc
    sell_amount_usd := sell_usd
    pi_cycle_triggered := pi_cycle }

/-- The `sell_pct` computed by the legacy `generate_recommendation` in
`src/dca_sell.py` (lines 575-606): Pi Cycle, then critical, then danger
floors applied by `max` in fixed order, then the warning tier only when
`sell_pct` is still 0, driven by the severity counts. -/
def legacySellPct (cfg : SellConfig) (pi_cycle : Bool)
    (signals_critical signals_danger signals_warning : ℕ) : ℚ :=
  let sell_pct : ℚ := 0
  let sell_pct := if pi_cycle then max sell_pct cfg.sell_tiers.pi_cycle else sell_pct
  let sell_pct := if 0 < signals_critical then max sell_pct cfg.sell_tiers.tier3 else sell_pct
  let sell_pct := if 0 < signals_danger then max sell_pct cfg.sell_tiers.tier2 else sell_pct
  let sell_pct :=
    if 0 < signals_warning ∧ sell_pct = 0 then cfg.sell_tiers.tier1 else sell_pct
  sell_pct

/-- The sell percentage as the specification describes it: the maximum over
all applicable floors — the pi-cycle tier when Pi Cycle fired, tier-3 when a
CRITICAL indicator is present, tier-2 when a DANGER indicator is present, and
tier-1 when a WARNING indicator is present and no higher-severity floor
applies.  Written from the spec's words, to be compared with
`computeSellPct`. -/
def specSellPct (cfg : SellConfig) (pi_cycle hasCritical hasDanger hasWarning : Bool) : ℚ :=
  max (max (max
    (if pi_cycle then cfg.sell_tiers.pi_cycle else 0)
    (if hasCritical then cfg.sell_tiers.tier3 else 0))
    (if hasDanger then cfg.sell_tiers.tier2 else 0))
    (if hasWarning ∧ ¬(pi_cycle ∨ hasCritical ∨ hasDanger) then cfg.sell_tiers.tier1 else 0)

/-- Whether some indicator in the list has the given risk level. -/
def hasLevel (lvl : RiskLevel) (indicators : List Indicator) : Bool :=
  indicators.any (fun i => i.level = lvl)

set_option maxHeartbeats 2000000 in
/-- One step of the indicator loop, started from the spec value of the
already-processed level flags, lands on the spec value of the updated flags,
provided the tiers are ordered (tier-1 smallest and nonnegative). -/
lemma sellPctStep_specSellPct (cfg : SellConfig)
    (h0 : 0 ≤ cfg.sell_tiers.tier1)
    (h2 : cfg.sell_tiers.tier1 ≤ cfg.sell_tiers.tier2)
    (h3 : cfg.sell_tiers.tier1 ≤ cfg.sell_tiers.tier3)
    (hp : cfg.sell_tiers.tier1 ≤ cfg.sell_tiers.pi_cycle)
    (hp0 : 0 ≤ cfg.sell_tiers.pi_cycle)
    (pi c d w : Bool) (ind : Indicator) :
    sellPctStep cfg (specSellPct cfg pi c d w) ind =
      specSellPct cfg pi (c || decide (ind.level = RiskLevel.CRITICAL))
        (d || decide (ind.level = RiskLevel.DANGER))
        (w || decide (ind.level = RiskLevel.WARNING)) := by
  obtain ⟨v, lvl, tw, td, tc⟩ := ind
  cases lvl <;> cases pi <;> cases c <;> cases d <;> cases w <;>
    (simp [sellPctStep, specSellPct]
     try (simp only [max_def]; split_ifs <;> intros <;> linarith)
     try (intros; linarith))

/-- Folding the indicator loop from the spec value of any starting flags
accumulates exactly the levels occurring in the list. -/
lemma foldl_sellPctStep_specSellPct (cfg : SellConfig)
    (h0 : 0 ≤ cfg.sell_tiers.tier1)
    (h2 : cfg.sell_tiers.tier1 ≤ cfg.sell_tiers.tier2)
    (h3 : cfg.sell_tiers.tier1 ≤ cfg.sell_tiers.tier3)
    (hp : cfg.sell_tiers.tier1 ≤ cfg.sell_tiers.pi_cycle)
    (hp0 : 0 ≤ cfg.sell_tiers.pi_cycle) :
    ∀ (indicators : List Indicator) (pi c d w : Bool),
    indicators.foldl (sellPctStep cfg) (specSellPct cfg pi c d w) =
      specSellPct cfg pi (c || hasLevel RiskLevel.CRITICAL indicators)
        (d || hasLevel RiskLevel.DANGER indicators)
        (w || hasLevel RiskLevel.WARNING indicators)
  | [], pi, c, d, w => by simp [hasLevel]
  | ind :: rest, pi, c, d, w => by
    rw [List.foldl_cons, sellPctStep_specSellPct cfg h0 h2 h3 hp hp0,
      foldl_sellPctStep_specSellPct cfg h0 h2 h3 hp hp0 rest]
    simp [hasLevel, Bool.or_assoc]

/-- `computeSellPct` equals the spec's maximum-of-applicable-floors once the
tiers are ordered. -/
lemma computeSellPct_eq_specSellPct (cfg : SellConfig)
    (h0 : 0 ≤ cfg.sell_tiers.tier1)
    (h2 : cfg.sell_tiers.tier1 ≤ cfg.sell_tiers.tier2)
    (h3 : cfg.sell_tiers.tier1 ≤ cfg.sell_tiers.tier3)
    (hp : cfg.sell_tiers.tier1 ≤ cfg.sell_tiers.pi_cycle)
    (hp0 : 0 ≤ cfg.sell_tiers.pi_cycle)
    (pi : Bool) (indicators : List Indicator) :
    computeSellPct cfg pi indicators =
      specSellPct cfg pi (hasLevel RiskLevel.CRITICAL indicators)
        (hasLevel RiskLevel.DANGER indicators)
        (hasLevel RiskLevel.WARNING indicators) := by
  have hinit : (if pi then max 0 cfg.sell_tiers.pi_cycle else (0 : ℚ)) =
      specSellPct cfg pi false false false := by
    cases pi <;> simp [specSellPct, max_comm]
  rw [show computeSellPct cfg pi indicators =
        List.foldl (sellPctStep cfg)
          (if pi = true then max 0 cfg.sell_tiers.pi_cycle else 0) indicators from rfl,
    hinit, foldl_sellPctStep_specSellPct cfg h0 h2 h3 hp hp0]
  simp

/-- A level occurs in the list iff its `_count_signals` entry is nonzero. -/
lemma hasLevel_eq_true_iff (lvl : RiskLevel) (indicators : List Indicator) :
    hasLevel lvl indicators = true ↔
      (indicators.filter (fun i => i.level = lvl)).length ≠ 0 := by
  simp only [hasLevel, List.any_eq_true, decide_eq_true_eq, ne_eq,
    List.length_eq_zero, List.filter_eq_nil_iff, decide_eq_true_eq]
  push_neg
  constructor
  · rintro ⟨i, hi, h⟩; exact ⟨i, hi, h⟩
  · rintro ⟨i, hi, h⟩; exact ⟨i, hi, h⟩

/-- When the three triggered-level counts are all zero, every indicator in the
list is SAFE. -/
lemma all_safe_of_counts_zero (indicators : List Indicator)
    (hw : (countSignals indicators).warning = 0)
    (hd : (countSignals indicators).danger = 0)
    (hc : (countSignals indicators).critical = 0) :
    ∀ i ∈ indicators, i.level = RiskLevel.SAFE := by
  intro i hi
  have hw' := List.filter_eq_nil_iff.mp (List.length_eq_zero.mp hw) i hi
  have hd' := List.filter_eq_nil_iff.mp (List.length_eq_zero.mp hd) i hi
  have hc' := List.filter_eq_nil_iff.mp (List.length_eq_zero.mp hc) i hi
  simp only [decide_eq_true_eq] at hw' hd' hc'
  cases h : i.level
  · rfl
  · exact absurd h hw'
  · exact absurd h hd'
  · exact absurd h hc'

/-- The indicator loop leaves `sell_pct` unchanged on a list of SAFE
indicators. -/
lemma foldl_sellPctStep_safe (cfg : SellConfig) :
    ∀ (indicators : List Indicator), (∀ i ∈ indicators, i.level = RiskLevel.SAFE) →
    ∀ (acc : ℚ), indicators.foldl (sellPctStep cfg) acc = acc
  | [], _, acc => rfl
  | ind :: rest, h, acc => by
    have hsafe : ind.level = RiskLevel.SAFE := h ind (List.mem_cons_self ind rest)
    rw [List.foldl_cons]
    have hstep : sellPctStep cfg acc ind = acc := by
      simp [sellPctStep, hsafe]
    rw [hstep]
    exact foldl_sellPctStep_safe cfg rest (fun i hi => h i (List.mem_cons_of_mem ind hi)) acc

/-- The buy-side fields of `MarketData` (`src/core/database.py`) consumed by
`DCABuyStrategy.evaluate`. -/
structure MarketDataBuy where
  price : ℚ
  ma7 : ℚ
  rsi : ℚ
  pct_change_7d : ℚ
deriving DecidableEq, Repr

/-- A reason string emitted by `DCABuyStrategy.evaluate`, abstracted to which
condition produced it. -/
inductive BuyReason where
  | rsiOverbought
  | priceBelowMa7
  | weeklyDrop
  | rsiOversold
  | normalMarket
deriving DecidableEq, Repr

/-- `BuyConfig` from `src/core/config.py`; the `multipliers` dict keyed by
`SignalType` is a total function (matching `dict.get(signal_type, 1.0)`). -/
structure BuyConfig where
  base_amount_usd : ℚ
  rsi_oversold : ℚ
  rsi_overbought : ℚ
  ma_dip_threshold : ℚ
  weekly_drop_threshold : ℚ
  multipliers : SignalType → ℚ

/-- Default `BuyConfig` from `src/core/config.py` (`DCA_BASE_AMOUNT` left at
its default "100"); signal types absent from the dict get `.get`'s 1.0. -/
def defaultBuyConfig : BuyConfig :=
  { base_amount_usd := 100
    rsi_oversold := 35
    rsi_overbought := 70
    ma_dip_threshold := 97/100
    weekly_drop_threshold := -3
    multipliers := fun s =>
      match s with
      | SignalType.TURBO_BUY => 8/5
      | SignalType.EXTRA_BUY => 13/10
      | SignalType.NORMAL_DCA => 1
      | SignalType.SKIP => 0
      | _ => 1 }

/-- The fields of `BuySignal` (`src/core/database.py`) computed by
`DCABuyStrategy._create_signal`. -/
structure BuySignalResult where
  signal_type : SignalType
  multiplier : ℚ
  suggested_amount : ℚ
  reasons : List BuyReason
deriving DecidableEq, Repr

/-- `DCABuyStrategy._create_signal` from `src/core/strategies.py`. -/
def createBuySignal (cfg : BuyConfig) (signal_type : SignalType)
    (reasons : List BuyReason) : BuySignalResult :=
  let multiplier := cfg.multipliers signal_type
  { signal_type := signal_type
    multiplier := multiplier
    suggested_amount := cfg.base_amount_usd * multiplier
    reasons := reasons }

/-- `DCABuyStrategy.evaluate` from `src/core/strategies.py`: SKIP on
overbought RSI, else TURBO_BUY when the price is under the MA7 dip threshold
or the weekly drop is at or below the threshold (one reason per trigger),
else EXTRA_BUY on oversold RSI, else NORMAL_DCA. -/
def evaluateBuy (cfg : BuyConfig) (md : MarketDataBuy) : BuySignalResult :=
  if md.rsi > cfg.rsi_overbought then
    createBuySignal cfg SignalType.SKIP [BuyReason.rsiOverbought]
  else
    let ma7_threshold := md.ma7 * cfg.ma_dip_threshold
    let turbo_reasons :=
      (if md.price < ma7_threshold then [BuyReason.priceBelowMa7] else []) ++
      (if md.pct_change_7d ≤ cfg.weekly_drop_threshold then [BuyReason.weeklyDrop] else [])
    if turbo_reasons ≠ [] then
      createBuySignal cfg SignalType.TURBO_BUY turbo_reasons
    else if md.rsi < cfg.rsi_oversold then
      createBuySignal cfg SignalType.EXTRA_BUY [BuyReason.rsiOversold]
    else
      createBuySignal cfg SignalType.NORMAL_DCA [BuyReason.normalMarket]

/-- The value of the `k`-day rolling mean of the daily price series at row
`i` (the mean of rows `i-k+1 .. i`), as a total function. -/
def smaVal (prices : List ℚ) (k i : ℕ) : ℚ :=
  (((List.range k).map (fun j => prices.getD (i - j) 0)).sum) / (k : ℚ)

/-- `df["price"].rolling(k).mean()` at row `i`: defined (non-NaN) exactly when
the row exists and a full `k`-day window precedes it. -/
def smaAt (prices : List ℚ) (k i : ℕ) : Option ℚ :=
  if k ≤ i + 1 ∧ i < prices.length then some (smaVal prices k i) else none

/-- The `ma_350_x2` series of `check_pi_cycle`: the 350-day rolling mean
`* 2`. -/
def ma350x2At (prices : List ℚ) (i : ℕ) : Option ℚ :=
  (smaAt prices 350 i).map (fun x => x * 2)

/-- A `>=` comparison on possibly-NaN series cells: NaN compares false, as in
pandas. -/
def optGE (a b : Option ℚ) : Bool :=
  match a, b with
  | some x, some y => decide (x ≥ y)
  | _, _ => false

/-- A `<` comparison on possibly-NaN series cells: NaN compares false. -/
def optLT (a b : Option ℚ) : Bool :=
  match a, b with
  | some x, some y => decide (x < y)
  | _, _ => false

/-- One iteration of the `for i in range(-3, 0)` loop of `check_pi_cycle`
(`src/core/market.py`): `ma_111.iloc[i] >= ma_350_x2.iloc[i] and
ma_111.iloc[i-1] < ma_350_x2.iloc[i-1]`, at absolute row index `i`. -/
def crossedAt (prices : List ℚ) (i : ℕ) : Bool :=
  optGE (smaAt prices 111 i) (ma350x2At prices i) &&
  optLT (smaAt prices 111 (i - 1)) (ma350x2At prices (i - 1))

/-- `MarketDataService.check_pi_cycle` from `src/core/market.py`: `false` on
fewer than 350 rows; `true` on a recent upward crossing of the 111-day SMA
over twice the 350-day SMA within the last 3 rows; otherwise `true` exactly
when the current relative gap is under 2%. -/
def checkPiCycle (prices : List ℚ) : Bool :=
  if prices.length < 350 then false
  else if crossedAt prices (prices.length - 3) || crossedAt prices (prices.length - 2) ||
      crossedAt prices (prices.length - 1) then
    true
  else
    decide ((smaVal prices 350 (prices.length - 1) * 2 - smaVal prices 111 (prices.length - 1)) /
      (smaVal prices 350 (prices.length - 1) * 2) < 2/100)

/-- `optGE` fires exactly on two defined cells in the `>=` relation. -/
lemma optGE_eq_true_iff (a b : Option ℚ) :
    optGE a b = true ↔ ∃ x y, a = some x ∧ b = some y ∧ y ≤ x := by
  cases a <;> cases b <;> simp [optGE]

/-- `optLT` fires exactly on two defined cells in the `<` relation. -/
lemma optLT_eq_true_iff (a b : Option ℚ) :
    optLT a b = true ↔ ∃ x y, a = some x ∧ b = some y ∧ x < y := by
  cases a <;> cases b <;> simp [optLT]

/-- When the `k`-window at row `i` is full, `smaAt` is `smaVal`. -/
lemma smaAt_eq_some_iff (prices : List ℚ) (k i : ℕ) (q : ℚ) :
    smaAt prices k i = some q ↔
      (k ≤ i + 1 ∧ i < prices.length) ∧ q = smaVal prices k i := by
  unfold smaAt
  split_ifs with h <;> simp [h, eq_comm]

/-- `crossedAt` holds exactly on rows where both SMA windows (also those of
the previous row) are full and the crossing inequalities hold. -/
lemma crossedAt_eq_true_iff (prices : List ℚ) (i : ℕ) :
    crossedAt prices i = true ↔
      350 ≤ i ∧ i < prices.length ∧
      smaVal prices 111 i ≥ smaVal prices 350 i * 2 ∧
      smaVal prices 111 (i - 1) < smaVal prices 350 (i - 1) * 2 := by
  rw [crossedAt, Bool.and_eq_true, optGE_eq_true_iff, optLT_eq_true_iff]
  constructor
  · rintro ⟨⟨x, y, hx, hy, hxy⟩, ⟨x', y', hx', hy', hxy'⟩⟩
    rw [ma350x2At, Option.map_eq_some'] at hy hy'
    obtain ⟨z, hz, rfl⟩ := hy
    obtain ⟨z', hz', rfl⟩ := hy'
    rw [smaAt_eq_some_iff] at hx hx' hz hz'
    obtain ⟨⟨_, hilen⟩, rfl⟩ := hx
    obtain ⟨⟨h350i1, _⟩, rfl⟩ := hz'
    obtain ⟨_, rfl⟩ := hx'
    obtain ⟨_, rfl⟩ := hz
    exact ⟨by omega, hilen, hxy, hxy'⟩
  · rintro ⟨h350, hlen, hge, hlt⟩
    refine ⟨⟨smaVal prices 111 i, smaVal prices 350 i * 2, ?_, ?_, hge⟩,
      ⟨smaVal prices 111 (i - 1), smaVal prices 350 (i - 1) * 2, ?_, ?_, hlt⟩⟩ <;>
      simp [ma350x2At, smaAt_eq_some_iff, Option.map_eq_some'] <;> omega

set_option maxHeartbeats 2000000 in
/-- The legacy `sell_pct` also equals the spec's maximum-of-applicable-floors
once the tiers are ordered. -/
lemma legacySellPct_eq_specSellPct (cfg : SellConfig)
    (h0 : 0 ≤ cfg.sell_tiers.tier1)
    (h2 : cfg.sell_tiers.tier1 ≤ cfg.sell_tiers.tier2)
    (h3 : cfg.sell_tiers.tier1 ≤ cfg.sell_tiers.tier3)
    (hp : cfg.sell_tiers.tier1 ≤ cfg.sell_tiers.pi_cycle)
    (hp0 : 0 ≤ cfg.sell_tiers.pi_cycle)
    (pi : Bool) (signals_critical signals_danger signals_warning : ℕ) :
    legacySellPct cfg pi signals_critical signals_danger signals_warning =
      specSellPct cfg pi (decide (0 < signals_critical))
        (decide (0 < signals_danger)) (decide (0 < signals_warning)) := by
  by_cases hc : 0 < signals_critical <;>
    by_cases hd : 0 < signals_danger <;>
      by_cases hw : 0 < signals_warning <;>
        cases pi <;>
          (simp [legacySellPct, specSellPct, hc, hd, hw]
           try (simp only [max_def]; split_ifs <;> intros <;> linarith)
           try (intros; linarith))

/-- A tier configuration with tier-1 above tier-3, legal for the `sell_tiers`
dict, on which indicator order changes the outcome. -/
def cexSellConfig : SellConfig :=
  { sell_tiers := { tier1 := 1/2, tier2 := 3/20, tier3 := 1/4, pi_cycle := 1/4 }
    min_signals_to_alert := 1
    min_signals_to_sell := 2 }

/-- A WARNING indicator (value 3.5 against thresholds 3/5/7) listed before a
CRITICAL one (value 8 against the same thresholds). -/
def cexIndicators : List Indicator :=
  [createIndicator (7/2) 3 5 7, createIndicator 8 3 5 7]

/-- The levels of the two counterexample indicators as `_create_indicator`
computes them. -/
lemma cexIndicators_levels :
    (createIndicator (7/2) 3 5 7).level = RiskLevel.WARNING ∧
    (createIndicator 8 3 5 7).level = RiskLevel.CRITICAL := by
  constructor <;> norm_num [createIndicator]

/-- C1 (counterexample): with tier-1 configured above tier-3 and a WARNING
indicator evaluated before the CRITICAL one, the loop locks in tier-1 before
the CRITICAL floor is seen, and the result (1/2) exceeds the maximum over
applicable floors (tier-3 = 1/4): the claimed equality fails for this
configuration and order. -/
theorem sellPct_not_always_max_of_floors :
    hasLevel RiskLevel.WARNING cexIndicators = true ∧
    hasLevel RiskLevel.CRITICAL cexIndicators = true ∧
    hasLevel RiskLevel.DANGER cexIndicators = false ∧
    computeSellPct cexSellConfig false cexIndicators ≠
      specSellPct cexSellConfig false true false true := by
  obtain ⟨hw, hc⟩ := cexIndicators_levels
  refine ⟨?_, ?_, ?_, ?_⟩
  · simp [hasLevel, cexIndicators, hw]
  · simp [hasLevel, cexIndicators, hc]
  · simp [hasLevel, cexIndicators, hw, hc]
  · norm_num [computeSellPct, cexIndicators, cexSellConfig, sellPctStep, hw, hc, specSellPct]
    split_ifs <;> simp_all <;> norm_num

/-- C1 (amended): whenever the configured tiers are ordered — tier-1
nonnegative and no larger than tier-2, tier-3 and the pi-cycle tier, as the
defaults are — the `sell_percentage` computed by the recommendation loop
equals the maximum over all applicable floors (pi-cycle tier when Pi Cycle
fired, tier-3 on any CRITICAL, tier-2 on any DANGER, tier-1 on a WARNING with
no higher floor applicable), for every indicator order; the legacy
`dca_sell.py` computation agrees with the same maximum. -/
theorem sellPct_eq_max_of_floors_of_ordered_tiers (cfg : SellConfig)
    (h0 : 0 ≤ cfg.sell_tiers.tier1)
    (h2 : cfg.sell_tiers.tier1 ≤ cfg.sell_tiers.tier2)
    (h3 : cfg.sell_tiers.tier1 ≤ cfg.sell_tiers.tier3)
    (hp : cfg.sell_tiers.tier1 ≤ cfg.sell_tiers.pi_cycle)
    (hp0 : 0 ≤ cfg.sell_tiers.pi_cycle)
    (pi : Bool) (indicators : List Indicator) :
    computeSellPct cfg pi indicators =
      specSellPct cfg pi (hasLevel RiskLevel.CRITICAL indicators)
        (hasLevel RiskLevel.DANGER indicators)
        (hasLevel RiskLevel.WARNING indicators) ∧
    legacySellPct cfg pi (countSignals indicators).critical
        (countSignals indicators).danger (countSignals indicators).warning =
      specSellPct cfg pi (decide (0 < (countSignals indicators).critical))
        (decide (0 < (countSignals indicators).danger))
        (decide (0 < (countSignals indicators).warning)) :=
  ⟨computeSellPct_eq_specSellPct cfg h0 h2 h3 hp hp0 pi indicators,
   legacySellPct_eq_specSellPct cfg h0 h2 h3 hp hp0 pi _ _ _⟩

/-- Witness for the amended C1 at the default tiers, Pi Cycle fired, and the
WARNING-before-CRITICAL list. -/
theorem sellPct_eq_max_of_floors_witness :
    (0 ≤ defaultSellConfig.sell_tiers.tier1 ∧
     defaultSellConfig.sell_tiers.tier1 ≤ defaultSellConfig.sell_tiers.tier2 ∧
     defaultSellConfig.sell_tiers.tier1 ≤ defaultSellConfig.sell_tiers.tier3 ∧
     defaultSellConfig.sell_tiers.tier1 ≤ defaultSellConfig.sell_tiers.pi_cycle ∧
     0 ≤ defaultSellConfig.sell_tiers.pi_cycle) ∧
    (computeSellPct defaultSellConfig true cexIndicators =
      specSellPct defaultSellConfig true (hasLevel RiskLevel.CRITICAL cexIndicators)
        (hasLevel RiskLevel.DANGER cexIndicators)
        (hasLevel RiskLevel.WARNING cexIndicators) ∧
     legacySellPct defaultSellConfig true (countSignals cexIndicators).critical
        (countSignals cexIndicators).danger (countSignals cexIndicators).warning =
      specSellPct defaultSellConfig true (decide (0 < (countSignals cexIndicators).critical))
        (decide (0 < (countSignals cexIndicators).danger))
        (decide (0 < (countSignals cexIndicators).warning))) :=
  ⟨⟨by norm_num [defaultSellConfig, defaultSellTiers],
    by norm_num [defaultSellConfig, defaultSellTiers],
    by norm_num [defaultSellConfig, defaultSellTiers],
    by norm_num [defaultSellConfig, defaultSellTiers],
    by norm_num [defaultSellConfig, defaultSellTiers]⟩,
   sellPct_eq_max_of_floors_of_ordered_tiers defaultSellConfig
     (by norm_num [defaultSellConfig, defaultSellTiers])
     (by norm_num [defaultSellConfig, defaultSellTiers])
     (by norm_num [defaultSellConfig, defaultSellTiers])
     (by norm_num [defaultSellConfig, defaultSellTiers])
     (by norm_num [defaultSellConfig, defaultSellTiers]) true cexIndicators⟩

/-- A healthy stored position: 1 BTC held, none sold. -/
def cexPosition : Position := { total_btc := 1, sold_btc := 0, cost_basis := 25000 }

/-- C2 (counterexample): `record_sale` adds the sold amount unconditionally,
so selling 2 BTC out of a 1 BTC position leaves `sold_btc = 2 > total_btc`:
the invariant is not preserved for every nonnegative amount. -/
theorem record_sale_breaks_invariant :
    0 ≤ cexPosition.sold_btc ∧ cexPosition.sold_btc ≤ cexPosition.total_btc ∧
    (0 : ℚ) ≤ 2 ∧
    ¬((record_sale cexPosition 2).sold_btc ≤ (record_sale cexPosition 2).total_btc) := by
  norm_num [record_sale, cexPosition]

/-- C2 (amended): the invariant `0 ≤ sold_btc ≤ total_btc` is preserved by
`record_sale` provided the amount sold is nonnegative and does not exceed the
remaining (unsold) BTC. -/
theorem record_sale_keeps_invariant_of_bounded_amount (p : Position) (btc_amount : ℚ)
    (h1 : 0 ≤ p.sold_btc) (h2 : p.sold_btc ≤ p.total_btc)
    (h3 : 0 ≤ btc_amount) (h4 : btc_amount ≤ p.total_btc - p.sold_btc) :
    0 ≤ (record_sale p btc_amount).sold_btc ∧
    (record_sale p btc_amount).sold_btc ≤ (record_sale p btc_amount).total_btc := by
  unfold record_sale
  constructor <;> simp <;> linarith

/-- Witness for the amended C2: selling 0.5 BTC out of the 1 BTC position. -/
theorem record_sale_keeps_invariant_witness :
    (0 ≤ cexPosition.sold_btc ∧ cexPosition.sold_btc ≤ cexPosition.total_btc ∧
     (0 : ℚ) ≤ 1/2 ∧ (1/2 : ℚ) ≤ cexPosition.total_btc - cexPosition.sold_btc) ∧
    0 ≤ (record_sale cexPosition (1/2)).sold_btc ∧
    (record_sale cexPosition (1/2)).sold_btc ≤ (record_sale cexPosition (1/2)).total_btc :=
  ⟨⟨by norm_num [cexPosition], by norm_num [cexPosition], by norm_num,
    by norm_num [cexPosition]⟩,
   record_sale_keeps_invariant_of_bounded_amount cexPosition (1/2)
     (by norm_num [cexPosition]) (by norm_num [cexPosition]) (by norm_num)
     (by norm_num [cexPosition])⟩

/-- The `warning` count is the length of the WARNING filter. -/
lemma countSignals_warning (indicators : List Indicator) :
    (countSignals indicators).warning =
      (indicators.filter (fun i => i.level = RiskLevel.WARNING)).length := rfl

/-- The `danger` count is the length of the DANGER filter. -/
lemma countSignals_danger (indicators : List Indicator) :
    (countSignals indicators).danger =
      (indicators.filter (fun i => i.level = RiskLevel.DANGER)).length := rfl

/-- The `critical` count is the length of the CRITICAL filter. -/
lemma countSignals_critical (indicators : List Indicator) :
    (countSignals indicators).critical =
      (indicators.filter (fun i => i.level = RiskLevel.CRITICAL)).length := rfl

/-- A level is absent from the list iff its filter is empty. -/
lemma hasLevel_eq_false_iff (lvl : RiskLevel) (indicators : List Indicator) :
    hasLevel lvl indicators = false ↔
      (indicators.filter (fun i => i.level = lvl)).length = 0 := by
  rw [← Bool.not_eq_true, hasLevel_eq_true_iff, not_ne_iff]

/-- C3: with exactly one CRITICAL indicator, no WARNING/DANGER indicators,
Pi Cycle off and the default thresholds (`min_signals_to_alert = 1`,
`min_signals_to_sell = 2`, default tiers), the recommendation is classified
ALERT — one signal is below the sell gate — while `sell_percentage` is
nevertheless the tier-3 default 0.25: classification and percentage are
computed independently. -/
theorem one_critical_gives_alert_with_tier3_pct
    (indicators : List Indicator) (price : ℚ) (position : Position)
    (hw : (countSignals indicators).warning = 0)
    (hd : (countSignals indicators).danger = 0)
    (hc : (countSignals indicators).critical = 1) :
    (generateRecommendation defaultSellConfig indicators false price position).signal_type =
      SignalType.ALERT ∧
    (generateRecommendation defaultSellConfig indicators false price position).sell_percentage =
      1/4 := by
  constructor
  · show classifySignal defaultSellConfig (countSignals indicators) false = SignalType.ALERT
    unfold classifySignal
    rw [hw, hd, hc]
    simp [defaultSellConfig]
  · show computeSellPct defaultSellConfig false indicators = 1/4
    have hC : hasLevel RiskLevel.CRITICAL indicators = true :=
      (hasLevel_eq_true_iff _ _).mpr (by rw [← countSignals_critical]; omega)
    have hD : hasLevel RiskLevel.DANGER indicators = false :=
      (hasLevel_eq_false_iff _ _).mpr (by rw [← countSignals_danger]; omega)
    have hW : hasLevel RiskLevel.WARNING indicators = false :=
      (hasLevel_eq_false_iff _ _).mpr (by rw [← countSignals_warning]; omega)
    rw [computeSellPct_eq_specSellPct defaultSellConfig
        (by norm_num [defaultSellConfig, defaultSellTiers])
        (by norm_num [defaultSellConfig, defaultSellTiers])
        (by norm_num [defaultSellConfig, defaultSellTiers])
        (by norm_num [defaultSellConfig, defaultSellTiers])
        (by norm_num [defaultSellConfig, defaultSellTiers]) false indicators,
      hC, hD, hW]
    norm_num [specSellPct, defaultSellConfig, defaultSellTiers, max_def]

/-- The C3 scenario: MVRV Z-Score 8 against thresholds 3/5/7 (CRITICAL) and
the mandatory RSI at 50 against thresholds 70/80/88 (SAFE). -/
def c3Indicators : List Indicator :=
  [createIndicator 8 3 5 7, createIndicator 50 70 80 88]

/-- The levels of the two C3 indicators as `_create_indicator` computes
them. -/
lemma c3Indicators_levels :
    (createIndicator 8 3 5 7).level = RiskLevel.CRITICAL ∧
    (createIndicator 50 70 80 88).level = RiskLevel.SAFE := by
  constructor <;> norm_num [createIndicator]

/-- The signal counts of the C3 scenario: no WARNING, no DANGER, one
CRITICAL. -/
lemma c3Indicators_counts :
    (countSignals c3Indicators).warning = 0 ∧
    (countSignals c3Indicators).danger = 0 ∧
    (countSignals c3Indicators).critical = 1 := by
  obtain ⟨h1, h2⟩ := c3Indicators_levels
  refine ⟨?_, ?_, ?_⟩ <;> simp [countSignals, c3Indicators, h1, h2]

/-- Witness for C3 at the concrete MVRV=8 / RSI=50 scenario. -/
theorem one_critical_gives_alert_witness :
    ((countSignals c3Indicators).warning = 0 ∧
     (countSignals c3Indicators).danger = 0 ∧
     (countSignals c3Indicators).critical = 1) ∧
    (generateRecommendation defaultSellConfig c3Indicators false 100000 cexPosition).signal_type =
      SignalType.ALERT ∧
    (generateRecommendation defaultSellConfig c3Indicators false 100000 cexPosition).sell_percentage =
      1/4 :=
  ⟨c3Indicators_counts,
   one_critical_gives_alert_with_tier3_pct c3Indicators 100000 cexPosition
     c3Indicators_counts.1 c3Indicators_counts.2.1 c3Indicators_counts.2.2⟩

/-- C4: when every evaluated indicator is SAFE (all three triggered counts
zero) but Pi Cycle fired, the recommendation is classified SELL — Pi Cycle
bypasses the `min_signals_to_sell` gate — and `sell_percentage` is the
configured (nonnegative) pi-cycle tier, for any configuration. -/
theorem pi_cycle_alone_forces_sell (cfg : SellConfig)
    (indicators : List Indicator) (price : ℚ) (position : Position)
    (hw : (countSignals indicators).warning = 0)
    (hd : (countSignals indicators).danger = 0)
    (hc : (countSignals indicators).critical = 0)
    (hp0 : 0 ≤ cfg.sell_tiers.pi_cycle) :
    (generateRecommendation cfg indicators true price position).signal_type =
      SignalType.SELL ∧
    (generateRecommendation cfg indicators true price position).sell_percentage =
      cfg.sell_tiers.pi_cycle := by
  constructor
  · show classifySignal cfg (countSignals indicators) true = SignalType.SELL
    unfold classifySignal
    simp
  · show computeSellPct cfg true indicators = cfg.sell_tiers.pi_cycle
    have hsafe := all_safe_of_counts_zero indicators hw hd hc
    rw [show computeSellPct cfg true indicators =
          List.foldl (sellPctStep cfg) (max 0 cfg.sell_tiers.pi_cycle) indicators from rfl,
      foldl_sellPctStep_safe cfg indicators hsafe]
    exact max_eq_right hp0

/-- A SAFE indicator for the C4 witness: RSI 50 against thresholds
70/80/88. -/
def c4Indicators : List Indicator := [createIndicator 50 70 80 88]

/-- The signal counts of the C4 scenario are all zero. -/
lemma c4Indicators_counts :
    (countSignals c4Indicators).warning = 0 ∧
    (countSignals c4Indicators).danger = 0 ∧
    (countSignals c4Indicators).critical = 0 := by
  have h : (createIndicator 50 70 80 88).level = RiskLevel.SAFE := by
    norm_num [createIndicator]
  refine ⟨?_, ?_, ?_⟩ <;> simp [countSignals, c4Indicators, h]

/-- Witness for C4 at the default configuration with a single SAFE RSI
indicator. -/
theorem pi_cycle_alone_forces_sell_witness :
    ((countSignals c4Indicators).warning = 0 ∧
     (countSignals c4Indicators).danger = 0 ∧
     (countSignals c4Indicators).critical = 0 ∧
     0 ≤ defaultSellConfig.sell_tiers.pi_cycle) ∧
    (generateRecommendation defaultSellConfig c4Indicators true 100000 cexPosition).signal_type =
      SignalType.SELL ∧
    (generateRecommendation defaultSellConfig c4Indicators true 100000 cexPosition).sell_percentage =
      defaultSellConfig.sell_tiers.pi_cycle :=
  ⟨⟨c4Indicators_counts.1, c4Indicators_counts.2.1, c4Indicators_counts.2.2,
    by norm_num [defaultSellConfig, defaultSellTiers]⟩,
   pi_cycle_alone_forces_sell defaultSellConfig c4Indicators 100000 cexPosition
     c4Indicators_counts.1 c4Indicators_counts.2.1 c4Indicators_counts.2.2
     (by norm_num [defaultSellConfig, defaultSellTiers])⟩

/-- C5: against strictly increasing thresholds `w < d < c`, the level
assigned by `_create_indicator` is CRITICAL iff `value ≥ c`, DANGER iff
`d ≤ value < c`, WARNING iff `w ≤ value < d`, and SAFE iff `value < w`. -/
theorem indicator_level_characterization (value w d c : ℚ)
    (hwd : w < d) (hdc : d < c) :
    ((createIndicator value w d c).level = RiskLevel.CRITICAL ↔ c ≤ value) ∧
    ((createIndicator value w d c).level = RiskLevel.DANGER ↔ d ≤ value ∧ value < c) ∧
    ((createIndicator value w d c).level = RiskLevel.WARNING ↔ w ≤ value ∧ value < d) ∧
    ((createIndicator value w d c).level = RiskLevel.SAFE ↔ value < w) := by
  have hlevel : (createIndicator value w d c).level =
      (if value ≥ c then RiskLevel.CRITICAL
       else if value ≥ d then RiskLevel.DANGER
       else if value ≥ w then RiskLevel.WARNING
       else RiskLevel.SAFE) := rfl
  rw [hlevel]
  split_ifs with h1 h2 h3 <;>
    refine ⟨?_, ?_, ?_, ?_⟩ <;> simp <;>
    first
      | linarith
      | (constructor <;> linarith)
      | (rintro ⟨ha, hb⟩; linarith)
      | (intro hcon; linarith)

/-- Witness for C5 at value 6 against thresholds 3 < 5 < 7 (a DANGER
reading). -/
theorem indicator_level_characterization_witness :
    ((3 : ℚ) < 5 ∧ (5 : ℚ) < 7) ∧
    ((createIndicator 6 3 5 7).level = RiskLevel.DANGER ↔ (5 : ℚ) ≤ 6 ∧ (6 : ℚ) < 7) :=
  ⟨⟨by norm_num, by norm_num⟩,
   (indicator_level_characterization 6 3 5 7 (by norm_num) (by norm_num)).2.1⟩

/-- C6: `check_pi_cycle` is `false` on fewer than 350 daily points; with at
least 350 points it is `true` exactly when either some of the last 3 rows
shows an upward crossing — the 111-day SMA at or above twice the 350-day SMA
there while strictly below on the previous row, both windows full — or,
failing that, the current relative gap at the last row is under 2%.  (As a
function of the price series alone, it is pure by construction.) -/
theorem checkPiCycle_characterization (prices : List ℚ) :
    (prices.length < 350 → checkPiCycle prices = false) ∧
    (350 ≤ prices.length →
      (checkPiCycle prices = true ↔
        (∃ i : ℕ, prices.length - 3 ≤ i ∧ i < prices.length ∧ 350 ≤ i ∧
            smaVal prices 111 i ≥ smaVal prices 350 i * 2 ∧
            smaVal prices 111 (i - 1) < smaVal prices 350 (i - 1) * 2) ∨
        (smaVal prices 350 (prices.length - 1) * 2 - smaVal prices 111 (prices.length - 1)) /
            (smaVal prices 350 (prices.length - 1) * 2) < 2/100)) := by
  constructor
  · intro h
    unfold checkPiCycle
    rw [if_pos h]
  · intro h
    have hne : ¬ prices.length < 350 := by omega
    by_cases hcross : (crossedAt prices (prices.length - 3) ||
        crossedAt prices (prices.length - 2) || crossedAt prices (prices.length - 1)) = true
    · have hval : checkPiCycle prices = true := by
        unfold checkPiCycle
        rw [if_neg hne, if_pos hcross]
      rw [hval]
      simp only [true_iff]
      left
      simp only [Bool.or_eq_true] at hcross
      rcases hcross with (h3 | h2) | h1
      · obtain ⟨hi350, hilen, hge, hlt⟩ := (crossedAt_eq_true_iff _ _).mp h3
        exact ⟨prices.length - 3, by omega, hilen, hi350, hge, hlt⟩
      · obtain ⟨hi350, hilen, hge, hlt⟩ := (crossedAt_eq_true_iff _ _).mp h2
        exact ⟨prices.length - 2, by omega, hilen, hi350, hge, hlt⟩
      · obtain ⟨hi350, hilen, hge, hlt⟩ := (crossedAt_eq_true_iff _ _).mp h1
        exact ⟨prices.length - 1, by omega, hilen, hi350, hge, hlt⟩
    · have hval : checkPiCycle prices =
          decide ((smaVal prices 350 (prices.length - 1) * 2 -
              smaVal prices 111 (prices.length - 1)) /
            (smaVal prices 350 (prices.length - 1) * 2) < 2/100) := by
        unfold checkPiCycle
        rw [if_neg hne, if_neg hcross]
      rw [hval, decide_eq_true_iff]
      constructor
      · intro hgap
        right
        exact hgap
      · rintro (⟨i, hi1, hi2, hi3, hge, hlt⟩ | hgap)
        · exfalso
          have hcrossed : crossedAt prices i = true :=
            (crossedAt_eq_true_iff _ _).mpr ⟨hi3, hi2, hge, hlt⟩
          have hior : i = prices.length - 3 ∨ i = prices.length - 2 ∨
              i = prices.length - 1 := by omega
          rcases hior with rfl | rfl | rfl <;> simp [hcrossed] at hcross
        · exact hgap

/-- Witness for C6: the empty series has fewer than 350 points and the
detector returns `false` on it. -/
theorem checkPiCycle_characterization_witness :
    ([] : List ℚ).length < 350 ∧ checkPiCycle [] = false :=
  ⟨by decide, (checkPiCycle_characterization []).1 (by decide)⟩

/-- The sequential accumulation in `_calculate_risk_score` collapses to the
clamped weighted sum. -/
lemma calculateRiskScore_eq (counts : SignalCounts) (pi_cycle : Bool) :
    calculateRiskScore counts pi_cycle =
      min (counts.warning * 10 + counts.danger * 25 + counts.critical * 40 +
        (if pi_cycle then 30 else 0)) 100 := by
  cases pi_cycle <;> simp [calculateRiskScore]

/-- C7: the risk score equals `min(10·warning + 25·danger + 40·critical +
(30 if pi_cycle), 100)`, hence is at most 100 (and, over ℕ, at least 0), and
is monotonically non-decreasing in each count and in the Pi-Cycle flag. -/
theorem risk_score_formula_bounded_monotone (w d c : ℕ) (pi : Bool)
    (w' d' c' : ℕ) (pi' : Bool)
    (hw : w ≤ w') (hd : d ≤ d') (hc : c ≤ c') (hpi : pi = true → pi' = true) :
    calculateRiskScore ⟨w, d, c⟩ pi =
      min (w * 10 + d * 25 + c * 40 + (if pi then 30 else 0)) 100 ∧
    calculateRiskScore ⟨w, d, c⟩ pi ≤ 100 ∧
    calculateRiskScore ⟨w, d, c⟩ pi ≤ calculateRiskScore ⟨w', d', c'⟩ pi' := by
  rw [calculateRiskScore_eq, calculateRiskScore_eq]
  refine ⟨rfl, min_le_right _ _, ?_⟩
  cases pi <;> cases pi' <;> simp_all <;> omega

/-- Witness for C7 at counts (1,1,1) against (2,2,2), flag set on both
sides. -/
theorem risk_score_formula_bounded_monotone_witness :
    ((1 : ℕ) ≤ 2 ∧ (1 : ℕ) ≤ 2 ∧ (1 : ℕ) ≤ 2) ∧
    calculateRiskScore ⟨1, 1, 1⟩ true =
      min (1 * 10 + 1 * 25 + 1 * 40 + (if true then 30 else 0)) 100 ∧
    calculateRiskScore ⟨1, 1, 1⟩ true ≤ 100 ∧
    calculateRiskScore ⟨1, 1, 1⟩ true ≤ calculateRiskScore ⟨2, 2, 2⟩ true :=
  ⟨⟨by decide, by decide, by decide⟩,
   risk_score_formula_bounded_monotone 1 1 1 true 2 2 2 true
     (by decide) (by decide) (by decide) (fun h => h)⟩

/-- C9: the legacy `MarketAnalysis.risk_score` of `src/dca_sell.py` and the
refactored `DCASellStrategy._calculate_risk_score` of `src/core/strategies.py`
agree on every combination of counts and Pi-Cycle flag. -/
theorem legacy_and_refactored_risk_score_agree :
    ∀ (w d c : ℕ) (pi : Bool),
      MarketAnalysis.risk_score w d c pi = calculateRiskScore ⟨w, d, c⟩ pi :=
  fun _ _ _ _ => rfl

/-- C10: `Position.cost_per_btc` is total — it returns
`cost_basis / total_btc` when `total_btc > 0` and 0 whenever
`total_btc ≤ 0`; the guard makes the division branch unreachable for
non-positive holdings. -/
theorem cost_per_btc_total (p : Position) :
    (0 < p.total_btc → p.cost_per_btc = p.cost_basis / p.total_btc) ∧
    (p.total_btc ≤ 0 → p.cost_per_btc = 0) := by
  unfold Position.cost_per_btc
  constructor
  · intro h
    rw [if_pos h]
  · intro h
    rw [if_neg (not_lt.mpr h)]

/-- Witness for C10 at an empty position (zero BTC): the guarded branch
returns 0. -/
theorem cost_per_btc_total_witness :
    (Position.mk 0 0 25000).total_btc ≤ 0 ∧ (Position.mk 0 0 25000).cost_per_btc = 0 :=
  ⟨le_refl 0, (cost_per_btc_total ⟨0, 0, 25000⟩).2 (le_refl 0)⟩

/-- C8: buy classification under the default configuration is
first-match-wins in the order SKIP, TURBO_BUY, EXTRA_BUY, NORMAL_DCA —
overbought RSI skips with multiplier 0; otherwise a price below 97% of MA7 or
a weekly drop of at least 3% triggers TURBO_BUY (multiplier 1.6, one reason
per triggered condition); otherwise oversold RSI triggers EXTRA_BUY
(multiplier 1.3); otherwise NORMAL_DCA (multiplier 1.0) — and in every case
the suggested amount is the base amount times the multiplier. -/
theorem buy_classification_first_match (md : MarketDataBuy) :
    (evaluateBuy defaultBuyConfig md).suggested_amount =
      defaultBuyConfig.base_amount_usd * (evaluateBuy defaultBuyConfig md).multiplier ∧
    (md.rsi > 70 →
      (evaluateBuy defaultBuyConfig md).signal_type = SignalType.SKIP ∧
      (evaluateBuy defaultBuyConfig md).multiplier = 0) ∧
    (md.rsi ≤ 70 → (md.price < md.ma7 * (97/100) ∨ md.pct_change_7d ≤ -3) →
      (evaluateBuy defaultBuyConfig md).signal_type = SignalType.TURBO_BUY ∧
      (evaluateBuy defaultBuyConfig md).multiplier = 8/5 ∧
      (evaluateBuy defaultBuyConfig md).reasons =
        (if md.price < md.ma7 * (97/100) then [BuyReason.priceBelowMa7] else []) ++
        (if md.pct_change_7d ≤ -3 then [BuyReason.weeklyDrop] else [])) ∧
    (md.rsi ≤ 70 → ¬(md.price < md.ma7 * (97/100)) → ¬(md.pct_change_7d ≤ -3) →
      md.rsi < 35 →
      (evaluateBuy defaultBuyConfig md).signal_type = SignalType.EXTRA_BUY ∧
      (evaluateBuy defaultBuyConfig md).multiplier = 13/10) ∧
    (md.rsi ≤ 70 → ¬(md.price < md.ma7 * (97/100)) → ¬(md.pct_change_7d ≤ -3) →
      35 ≤ md.rsi →
      (evaluateBuy defaultBuyConfig md).signal_type = SignalType.NORMAL_DCA ∧
      (evaluateBuy defaultBuyConfig md).multiplier = 1) := by
  by_cases h1 : md.rsi > 70 <;>
    by_cases h2 : md.price < md.ma7 * (97/100) <;>
      by_cases h3 : md.pct_change_7d ≤ -3 <;>
        by_cases h4 : md.rsi < 35 <;>
          refine ⟨?_, ?_, ?_, ?_, ?_⟩ <;>
            simp [evaluateBuy, createBuySignal, defaultBuyConfig, h1, h2, h3, h4] <;>
              intros <;> first | rfl | linarith | trivial

/-- Witness for C8 at a calm market (RSI 50, price at MA7, flat week): the
NORMAL_DCA branch. -/
theorem buy_classification_first_match_witness :
    ((50 : ℚ) ≤ 70 ∧ ¬((100000 : ℚ) < 100000 * (97/100)) ∧ ¬((0 : ℚ) ≤ -3) ∧
      (35 : ℚ) ≤ 50) ∧
    (evaluateBuy defaultBuyConfig ⟨100000, 100000, 50, 0⟩).signal_type =
      SignalType.NORMAL_DCA ∧
    (evaluateBuy defaultBuyConfig ⟨100000, 100000, 50, 0⟩).multiplier = 1 :=
  ⟨⟨by norm_num, by norm_num, by norm_num, by norm_num⟩,
   (buy_classification_first_match ⟨100000, 100000, 50, 0⟩).2.2.2.2
     (by norm_num) (by norm_num) (by norm_num) (by norm_num)⟩

end DCA
